import Mathlib

/-!
Verification of the cluster pool control plane (ClusterHandler in
admin/modules/cluster.py, REST facade in src/resources/cluster.py).

The MongoDB collections are shallowly embedded as Lean lists kept in insertion
order; `find_one` is the first match, `find_one_and_update` updates the first
match and returns the post-image (ReturnDocument.AFTER), `insert_one` appends,
`delete_one` removes the first match.  The external container backend
(compose start, compose stop, container and image cleanup) and the daemon
reachability test are parametrized, since they are out of scope collaborators.
Timestamps (datetime.datetime.now()) are modelled as natural numbers passed in
explicitly; a missing timestamp field (the empty string in the source) is
Option.none.  Python string splitting and int() are modelled over character
lists because the embedding must evaluate inside the kernel.
-/

namespace Cello

/-! ## Store primitives (MongoDB collections as lists in insertion order) -/

/-- collection.find_one(predicate): first document matching the predicate. -/
def findOne (l : List α) (p : α → Bool) : Option α :=
  l.find? p

/-- collection.update_one(predicate, patch): patch the first matching document. -/
def updateFirst (p : α → Bool) (f : α → α) : List α → List α
  | [] => []
  | x :: xs => if p x then f x :: xs else x :: updateFirst p f xs

/-- collection.find_one_and_update(predicate, patch, return_document=AFTER):
patch the first matching document and return its post-image together with the
updated collection. -/
def findOneAndUpdateAfter (p : α → Bool) (f : α → α) : List α → Option α × List α
  | [] => (none, [])
  | x :: xs =>
    if p x then (some (f x), f x :: xs)
    else
      let r := findOneAndUpdateAfter p f xs
      (r.1, x :: r.2)

/-! ## Python string helpers over character lists -/

/-- Python str.split(sep) for a one-character separator, over the character
list of the string: "a:b".split(":") gives ["a", "b"], "".split(":") gives
[""]. -/
def splitOnChar (sep : Char) : List Char → List (List Char)
  | [] => [[]]
  | c :: cs =>
    match splitOnChar sep cs with
    | [] => [[c]]
    | h :: t => if c == sep then [] :: h :: t else (c :: h) :: t

/-- Decimal digit test. -/
def isDigit (c : Char) : Bool := '0' ≤ c && c ≤ '9'

/-- Value of a digit string, most significant first. -/
def digitsToNat (l : List Char) : Nat :=
  l.foldl (fun acc c => acc * 10 + (c.toNat - '0'.toNat)) 0

/-- Python int() on a string: an optional sign followed by one or more decimal
digits (surrounding-whitespace tolerance of int() is not modelled).  none
models a raised ValueError. -/
def pythonInt : List Char → Option Int
  | [] => none
  | '-' :: rest =>
    if !rest.isEmpty && rest.all isDigit then some (-(digitsToNat rest : Int)) else none
  | '+' :: rest =>
    if !rest.isEmpty && rest.all isDigit then some ((digitsToNat rest : Int)) else none
  | l =>
    if l.all isDigit then some ((digitsToNat l : Int)) else none

/-! ## Data model -/

/-- A document of the cluster_active / cluster_released collections.  mongo_id
models the Mongo object id assigned by insert_one; id is the user-visible
field written back right after the insert ("" while the field is absent).
consensus_plugin, consensus_mode and size are the shape attributes carried by
records of the newer handler generation; the admin handler leaves them at
their defaults.  A timestamp field holding the empty string is none. -/
structure Cluster where
  mongo_id : String
  id : String
  name : String
  user_id : String
  api_url : String
  host_id : String
  consensus_plugin : String
  consensus_mode : String
  size : Int
  create_ts : Nat
  apply_ts : Option Nat
  release_ts : Option Nat
  node_containers : List String
deriving Repr, DecidableEq, Inhabited

/-- A document of the host collection, as read by the cluster handler. -/
structure Host where
  id : String
  status : String
  daemon_url : String
  capacity : Int
  clusters : List String
deriving Repr, DecidableEq, Inhabited

/-- The persistent state touched by the handler: the two cluster collections
and the host collection. -/
structure DB where
  active : List Cluster
  released : List Cluster
  hosts : List Host
deriving Repr, DecidableEq, Inhabited

/-- The serialized result of apply_cluster: _serialize(c, keys=[id, name,
user_id, api_url]) plus the daemon_url of the chosen host. -/
structure ApplyResult where
  id : String
  name : String
  user_id : String
  api_url : String
  daemon_url : String
deriving Repr, DecidableEq, Inhabited

/-- Value returned by find_free_api_ports: the source returns either a string
(the empty string on a missing host or a malformed daemon url) or a list of
ports; raised models an uncaught Python exception (int() ValueError). -/
inductive FPResult where
  | str (s : String)
  | ports (l : List Int)
  | raised (msg : String)
deriving Repr, DecidableEq

/-- Configuration constant CLUSTER_API_PORT_START.  Its definition site
(common) is not among the provided sources; the concrete value is irrelevant
to every theorem below, which hold for any value. -/
def CLUSTER_API_PORT_START : Nat := 7050

/-! ## ClusterHandler (admin/modules/cluster.py) -/

/-- ClusterHandler._gen_api_url(host_id, api_port): look up the host, split
its daemon_url on ":" (expecting tcp://ip:port), strip the leading "//" from
the middle segment to get the ip; an explicit api_port > 0 is used verbatim,
otherwise the first candidate port from CLUSTER_API_PORT_START whose url is
not among the api_url values of active clusters on this host (a window of
len(existing)+1 candidates) is used.  Returns "" on a missing host, a
malformed daemon url, or an exhausted window. -/
def gen_api_url (db : DB) (host_id : String) (api_port : Int) : String :=
  match findOne db.hosts (fun h => h.id == host_id) with
  | none => ""
  | some host =>
    let segs := splitOnChar ':' host.daemon_url.data
    if segs.length != 3 then ""
    else
      let host_ip := String.mk ((segs.getD 1 []).drop 2)
      if api_port > 0 then
        "http://" ++ host_ip ++ ":" ++ toString api_port
      else
        let api_url_existed :=
          (db.active.filter (fun c => c.host_id == host_id)).map (fun c => c.api_url)
        let tryUrl := fun (i : Nat) =>
          "http://" ++ host_ip ++ ":" ++ toString (CLUSTER_API_PORT_START + i)
        match (List.range (api_url_existed.length + 1)).find?
            (fun i => !api_url_existed.contains (tryUrl i)) with
        | some i => tryUrl i
        | none => ""

/-- ClusterHandler.delete(id, col_name, record, forced): select the record
(in active without forced, additionally require user_id == ""); when deleting
from active, stop the composition and clean containers and images (backend
only, failures swallowed, no store effect) and, when record is set, archive
the record into released after filling an empty release_ts; then remove the
cluster id from its host record and delete the record from its collection. -/
def delete (db : DB) (id : String) (col_name : String) (record : Bool)
    (forced : Bool) (now : Nat) : Bool × DB :=
  let fromActive := col_name == "active"
  let c? :=
    if fromActive && !forced then
      findOne db.active (fun c => c.id == id && c.user_id == "")
    else if fromActive then
      findOne db.active (fun c => c.id == id)
    else
      findOne db.released (fun c => c.id == id)
  match c? with
  | none => (false, db)
  | some c =>
    let db1 :=
      if fromActive && record then
        let archived := if c.release_ts == none then { c with release_ts := some now } else c
        { db with released := db.released ++ [archived] }
      else db
    let db2 :=
      match findOne db1.hosts (fun h => h.id == c.host_id) with
      | none => db1
      | some h =>
        let hosts' := updateFirst (fun h2 : Host => h2.id == c.host_id)
          (fun h2 => { h2 with clusters := h.clusters.erase id }) db1.hosts
        { db1 with hosts := hosts' }
    if fromActive then
      (true, { db2 with active := db2.active.eraseP (fun c2 => c2.id == id) })
    else
      (true, { db2 with released := db2.released.eraseP (fun c2 => c2.id == id) })

/-- ClusterHandler.create(name, host_id, api_port, user_id): load the host and
fail when absent, full, or with an unreachable daemon (testDaemon models
test_daemon); generate the api_url; insert a record whose user_id is the
sentinel "__NOT_READY_FOR_APPLY__" when no user_id was passed, then write the
stringified object id back into the id field; start the composition
(composeResult models the outcome of _compose_start_project: error is a raised
exception, ok is the returned container id list); on an exception or an empty
container list force-delete the just-inserted record without archiving and
fail; otherwise append the id to the host clusters list (read-modify-write as
in the source) and patch the record with the containers and the final
user_id. -/
def create (db : DB) (testDaemon : String → Bool)
    (composeResult : Except String (List String)) (newId : String) (now : Nat)
    (name : String) (host_id : String) (api_port : Int) (user_id : String) :
    Option String × DB :=
  match findOne db.hosts (fun h => h.id == host_id) with
  | none => (none, db)
  | some h =>
    if (h.clusters.length : Int) ≥ h.capacity then (none, db)
    else if !testDaemon h.daemon_url then (none, db)
    else
      let api_url := gen_api_url db host_id api_port
      let c : Cluster :=
        { mongo_id := newId
          id := ""
          name := name
          user_id := if user_id == "" then "__NOT_READY_FOR_APPLY__" else user_id
          api_url := api_url
          host_id := host_id
          consensus_plugin := ""
          consensus_mode := ""
          size := 0
          create_ts := now
          apply_ts := none
          release_ts := none
          node_containers := [] }
      let db1 := { db with active := db.active ++ [c] }
      let active2 :=
        updateFirst (fun x : Cluster => x.mongo_id == newId) (fun x => { x with id := newId }) db1.active
      let db2 := { db1 with active := active2 }
      match composeResult with
      | Except.error _ => (none, (delete db2 newId "active" false true now).2)
      | Except.ok containers =>
        if containers.isEmpty then (none, (delete db2 newId "active" false true now).2)
        else
          let db3 :=
            match findOne db2.hosts (fun h2 => h2.id == host_id) with
            | none => db2
            | some h2 =>
              let hosts' := updateFirst (fun x : Host => x.id == host_id)
                (fun x => { x with clusters := h2.clusters ++ [newId] }) db2.hosts
              { db2 with hosts := hosts' }
          let active4 := updateFirst (fun x : Cluster => x.mongo_id == newId)
            (fun x => { x with node_containers := containers, user_id := user_id })
            db3.active
          let db4 := { db3 with active := active4 }
          (some newId, db4)

/-- ClusterHandler.apply_cluster(user_id): pick the first host with status
"active"; look for an already assigned cluster of this user on that host with
an empty release_ts; when none is found, atomically claim a cluster whose
user_id is "" via find_one_and_update, setting user_id and apply_ts; succeed
when the resulting document carries this user_id, returning its projection
together with the daemon_url of the chosen host. -/
def apply_cluster (db : DB) (user_id : String) (now : Nat) :
    Option ApplyResult × DB :=
  match findOne db.hosts (fun h => h.status == "active") with
  | none => (none, db)
  | some h =>
    let found :=
      match findOne db.active
          (fun c => c.user_id == user_id && c.release_ts == none && c.host_id == h.id) with
      | some c => (some c, db.active)
      | none =>
        findOneAndUpdateAfter (fun c => c.user_id == "")
          (fun c => { c with user_id := user_id, apply_ts := some now }) db.active
    let db' := { db with active := found.2 }
    match found.1 with
    | some c =>
      if c.user_id == user_id then
        (some { id := c.id, name := c.name, user_id := c.user_id,
                api_url := c.api_url, daemon_url := h.daemon_url }, db')
      else (none, db')
    | none => (none, db')

/-- ClusterHandler.release_cluster(user_id): atomically set release_ts on the
first active record with this user_id and an empty release_ts; fail when
nothing matched or the post-image release_ts is still empty.  The background
delete-and-recreate thread it spawns on success is modelled separately by
delete_recreate_work. -/
def release_cluster (db : DB) (user_id : String) (now : Nat) : Bool × DB :=
  let r := findOneAndUpdateAfter
    (fun c => c.user_id == user_id && c.release_ts == none)
    (fun c => { c with release_ts := some now }) db.active
  let db' := { db with active := r.2 }
  match r.1 with
  | none => (false, db')
  | some c => if c.release_ts == none then (false, db') else (true, db')

/-- Parameter names of ClusterHandler.create, self excluded, read off its
def line: create(self, name, host_id, api_port=0, user_id=""). -/
def create_param_names : List String := ["name", "host_id", "api_port", "user_id"]

/-- Keyword names used at the call self.create(cluster_name, host_id,
api_url=cluster_api_url) inside delete_recreate_work. -/
def recycle_create_keywords : List String := ["api_url"]

/-- Python call binding: every keyword argument must name a parameter of the
callee, otherwise the call raises TypeError before the body runs. -/
def keywordsBind (params kws : List String) : Bool :=
  kws.all (fun k => params.contains k)

/-- The body of delete_recreate_work, the background thread spawned by
release_cluster on the released post-image c: force-delete c with archiving,
then call self.create(cluster_name, host_id, api_url=cluster_api_url).  The
keyword api_url is bound against the parameter list of create; since create
has no such parameter the call raises TypeError and no cluster is created.
createOutcome abstracts the state transformation a successful create call
would have performed, so the theorem below holds whatever create would do. -/
def delete_recreate_work (createOutcome : DB → Option String × DB)
    (db : DB) (c : Cluster) (now : Nat) : DB × Except String Unit :=
  let db1 := (delete db c.id "active" true true now).2
  if keywordsBind create_param_names recycle_create_keywords then
    ((createOutcome db1).2, Except.ok ())
  else
    (db1, Except.error "TypeError: create() got an unexpected keyword argument")

/-- The used ports of the active clusters on a host:
int(c.get("api_url", "").split(":")[-1]) for each such cluster; none models
the ValueError raised by int() on an unparsable segment. -/
def ports_existed (db : DB) (host_id : String) : Option (List Int) :=
  ((db.active.filter (fun c => c.host_id == host_id)).map
    (fun c => pythonInt ((splitOnChar ':' c.api_url.data).getLastD []))).mapM id

/-- ClusterHandler.find_free_api_ports(host_id, number): a non-positive number
gives []; a missing host or a daemon_url that does not split into exactly
three ":"-separated segments gives the string ""; the ports of the active
clusters on the host are int(api_url.split(":")[-1]) (raised on a parse
failure); when len(used) + number >= 64000 the result is []; otherwise the
candidates CLUSTER_API_PORT_START + i for i < len(used) + number are filtered
against the used ports and the first number survivors are returned. -/
def find_free_api_ports (db : DB) (host_id : String) (number : Int) : FPResult :=
  if number ≤ 0 then FPResult.ports []
  else
    match findOne db.hosts (fun h => h.id == host_id) with
    | none => FPResult.str ""
    | some host =>
      let segs := splitOnChar ':' host.daemon_url.data
      if segs.length != 3 then FPResult.str ""
      else
        match ports_existed db host_id with
        | none => FPResult.raised "ValueError: invalid literal for int()"
        | some used =>
          if (used.length : Int) + number ≥ 64000 then FPResult.ports []
          else
            let candidates := (List.range (used.length + number.toNat)).map
              (fun i : Nat => (CLUSTER_API_PORT_START : Int) + (i : Int))
            let result := candidates.filter (fun item => !used.contains item)
            FPResult.ports (result.take number.toNat)

/-! ## Handler generation called by the REST facade (modelled from the spec)

The facade src/resources/cluster.py calls cluster_handler.apply_cluster with
user_id, condition and allow_multiple, and cluster_handler.release_cluster
with a cluster_id; the handler module it imports is a newer generation than
admin/modules/cluster.py and is not among the provided sources, so those two
entry points are modelled from the spec. -/

/-- The condition built by the facade: any subset of consensus_plugin,
consensus_mode and size, values already validated against the allowed sets. -/
structure Condition where
  consensus_plugin : Option String
  consensus_mode : Option String
  size : Option Int
deriving Repr, DecidableEq, Inhabited

/-- An empty condition constrains nothing. -/
def Condition.isEmpty (cond : Condition) : Bool :=
  cond.consensus_plugin.isNone && cond.consensus_mode.isNone && cond.size.isNone

/-- A record matches every constraint present in the condition. -/
def matchesCondition (cond : Condition) (c : Cluster) : Bool :=
  (match cond.consensus_plugin with
   | none => true
   | some p => c.consensus_plugin == p) &&
  (match cond.consensus_mode with
   | none => true
   | some m => c.consensus_mode == m) &&
  (match cond.size with
   | none => true
   | some s => c.size == s)

/-- Projection returned by apply, as in the source _serialize plus the host
daemon_url. -/
def mkApplyResult (c : Cluster) (h : Host) : ApplyResult :=
  { id := c.id, name := c.name, user_id := c.user_id,
    api_url := c.api_url, daemon_url := h.daemon_url }

/-- Modelled from the spec: apply_cluster(user_id, condition, allow_multiple)
of the newer handler generation called by the facade (missing from the
provided sources).  Spec 4.5.3: pick any host with status "active", else
fail; unless allow_multiple is truthy, return the already leased cluster of
this user on this host with an empty release_ts when one exists; otherwise
atomically claim an idle cluster whose record matches every constraint of the
condition via find_one_and_update with predicate user_id == "" plus the
condition, patching user_id and apply_ts, and demand the post-image carries
this user_id. -/
def apply_cluster_cond (db : DB) (user_id : String) (cond : Condition)
    (allow_multiple : Bool) (now : Nat) : Option ApplyResult × DB :=
  match findOne db.hosts (fun h => h.status == "active") with
  | none => (none, db)
  | some h =>
    let existing :=
      if allow_multiple then none
      else findOne db.active
        (fun c => c.user_id == user_id && c.release_ts == none && c.host_id == h.id)
    match existing with
    | some c => (some (mkApplyResult c h), db)
    | none =>
      let r := findOneAndUpdateAfter
        (fun c => c.user_id == "" && matchesCondition cond c)
        (fun c => { c with user_id := user_id, apply_ts := some now }) db.active
      let db' := { db with active := r.2 }
      match r.1 with
      | some c =>
        if c.user_id == user_id then (some (mkApplyResult c h), db') else (none, db')
      | none => (none, db')

/-- Modelled from the spec: release_cluster(cluster_id) of the newer handler
generation called by the facade (missing from the provided sources).  Spec
4.5.4: find the active record with that id and an empty release_ts, atomically
patch release_ts to now via find_one_and_update, and fail exactly when the
record was not found or the post-image still has an empty release_ts. -/
def release_cluster_by_id (db : DB) (cluster_id : String) (now : Nat) : Bool × DB :=
  let r := findOneAndUpdateAfter
    (fun c => c.id == cluster_id && c.release_ts == none)
    (fun c => { c with release_ts := some now }) db.active
  let db' := { db with active := r.2 }
  match r.1 with
  | none => (false, db')
  | some c => if c.release_ts == none then (false, db') else (true, db')

/-! ## Lemmas about the store primitives -/

theorem updateFirst_of_find?_none {p : α → Bool} {f : α → α} {l : List α}
    (h : l.find? p = none) : updateFirst p f l = l := by
  induction l with
  | nil => rfl
  | cons x xs ih =>
    rw [List.find?_cons] at h
    cases hx : p x with
    | true => simp [hx] at h
    | false =>
      simp only [hx] at h
      simp [updateFirst, hx, ih h]

theorem find?_append_none {p : α → Bool} {l₁ l₂ : List α}
    (h : l₁.find? p = none) : (l₁ ++ l₂).find? p = l₂.find? p := by
  induction l₁ with
  | nil => rfl
  | cons x xs ih =>
    rw [List.find?_cons] at h
    cases hx : p x with
    | true => simp [hx] at h
    | false =>
      simp only [hx] at h
      simp [List.find?_cons, hx, ih h]

theorem updateFirst_append_none {p : α → Bool} {f : α → α} {l₁ l₂ : List α}
    (h : l₁.find? p = none) : updateFirst p f (l₁ ++ l₂) = l₁ ++ updateFirst p f l₂ := by
  induction l₁ with
  | nil => rfl
  | cons x xs ih =>
    rw [List.find?_cons] at h
    cases hx : p x with
    | true => simp [hx] at h
    | false =>
      simp only [hx] at h
      simp [updateFirst, hx, ih h]

theorem updateFirst_singleton {p : α → Bool} {f : α → α} {a : α}
    (h : p a = true) : updateFirst p f [a] = [f a] := by
  simp [updateFirst, h]

theorem fOAU_fst (p : α → Bool) (f : α → α) (l : List α) :
    (findOneAndUpdateAfter p f l).1 = (l.find? p).map f := by
  induction l with
  | nil => rfl
  | cons x xs ih =>
    cases hx : p x with
    | true => simp [findOneAndUpdateAfter, List.find?_cons, hx]
    | false => simp [findOneAndUpdateAfter, List.find?_cons, hx, ih]

theorem fOAU_snd (p : α → Bool) (f : α → α) (l : List α) :
    (findOneAndUpdateAfter p f l).2 = updateFirst p f l := by
  induction l with
  | nil => rfl
  | cons x xs ih =>
    cases hx : p x with
    | true => simp [findOneAndUpdateAfter, updateFirst, hx]
    | false => simp [findOneAndUpdateAfter, updateFirst, hx, ih]

theorem updateFirst_length (p : α → Bool) (f : α → α) (l : List α) :
    (updateFirst p f l).length = l.length := by
  induction l with
  | nil => rfl
  | cons x xs ih =>
    cases hx : p x with
    | true => simp [updateFirst, hx]
    | false => simp [updateFirst, hx, ih]

theorem updateFirst_getD_ne {p : α → Bool} {f : α → α} {l : List α} (d : α) (i : Nat)
    (h : (updateFirst p f l).getD i d ≠ l.getD i d) : p (l.getD i d) = true := by
  induction l generalizing i with
  | nil => simp [updateFirst] at h
  | cons x xs ih =>
    cases hx : p x with
    | true =>
      simp only [updateFirst, hx, if_pos] at h
      cases i with
      | zero => simpa using hx
      | succ j => simp at h
    | false =>
      simp only [updateFirst, hx, if_neg, Bool.false_eq_true, not_false_iff] at h
      cases i with
      | zero => simp at h
      | succ j => exact ih j (by simpa using h)

theorem updateFirst_eq_of_fix {p : α → Bool} {f : α → α} {l : List α} {a : α}
    (h : l.find? p = some a) (hfix : f a = a) : updateFirst p f l = l := by
  induction l with
  | nil => simp at h
  | cons x xs ih =>
    rw [List.find?_cons] at h
    cases hx : p x with
    | true =>
      simp only [hx, if_pos] at h
      obtain rfl : x = a := by simpa using h
      simp [updateFirst, hx, hfix]
    | false =>
      simp only [hx] at h
      simp [updateFirst, hx, ih h]

theorem find?_updateFirst_first {p : α → Bool} {f : α → α} {l : List α} {a : α}
    (h : l.find? p = some a) (hf : p (f a) = true) :
    (updateFirst p f l).find? p = some (f a) := by
  induction l with
  | nil => simp at h
  | cons x xs ih =>
    rw [List.find?_cons] at h
    cases hx : p x with
    | true =>
      simp only [hx, if_pos] at h
      obtain rfl : x = a := by simpa using h
      simp [updateFirst, hx, List.find?_cons, hf]
    | false =>
      simp only [hx] at h
      simp [updateFirst, hx, List.find?_cons, ih h]

theorem updateFirst_updateFirst {p : α → Bool} {f g : α → α} {l : List α} {a : α}
    (h : l.find? p = some a) (hf : p (f a) = true) :
    updateFirst p g (updateFirst p f l) = updateFirst p (fun x => g (f x)) l := by
  induction l with
  | nil => rfl
  | cons x xs ih =>
    rw [List.find?_cons] at h
    cases hx : p x with
    | true =>
      simp only [hx, if_pos] at h
      obtain rfl : x = a := by simpa using h
      simp [updateFirst, hx, hf]
    | false =>
      simp only [hx] at h
      simp [updateFirst, hx, ih h]

theorem eraseP_append_last {p : α → Bool} {l : List α} {c : α}
    (h : ∀ x ∈ l, p x = false) (hc : p c = true) : (l ++ [c]).eraseP p = l := by
  induction l with
  | nil => simp [List.eraseP, hc]
  | cons x xs ih =>
    have hx := h x (by simp)
    simp only [List.cons_append, List.eraseP_cons, hx, cond_false]
    rw [ih (fun y hy => h y (by simp [hy]))]

theorem find?_eq_none_of_not_mem_map {l : List α} {g : α → β} {b : β} [DecidableEq β]
    (h : b ∉ l.map g) (p : α → Bool) (hp : ∀ x, p x = true → g x = b) :
    l.find? p = none := by
  rw [List.find?_eq_none]
  intro x hx hpx
  exact h (List.mem_map.mpr ⟨x, hx, hp x hpx⟩)

/-! ## The port allocation window -/

theorem length_filter_not_contains (used : List Int) (l : List Int) :
    (l.filter (fun x => !used.contains x)).length
      + (l.filter (fun x => used.contains x)).length = l.length := by
  induction l with
  | nil => rfl
  | cons x xs ih =>
    simp only [List.filter_cons]
    cases hx : used.contains x <;>
      simp only [hx, Bool.not_true, Bool.not_false, Bool.false_eq_true, eq_self_iff_true,
        if_true, if_false, List.length_cons] <;>
      omega

/-- The value computed by find_free_api_ports on the happy path: the first n
survivors of filtering the candidate window of len(used) + n ports starting at
start against the used ports. -/
def freePortsWindow (used : List Int) (start : Int) (n : Nat) : List Int :=
  (((List.range (used.length + n)).map (fun i : Nat => start + (i : Int))).filter
    (fun x => !used.contains x)).take n

theorem mem_window {start : Int} {W : Nat} {x : Int} :
    x ∈ (List.range W).map (fun i : Nat => start + (i : Int)) ↔ start ≤ x ∧ x < start + W := by
  simp only [List.mem_map, List.mem_range]
  constructor
  · rintro ⟨i, hi, rfl⟩
    omega
  · rintro ⟨h1, h2⟩
    exact ⟨(x - start).toNat, by omega, by omega⟩

theorem window_nodup (start : Int) (W : Nat) :
    ((List.range W).map (fun i : Nat => start + (i : Int))).Nodup := by
  have hinj : Function.Injective (fun i : Nat => start + (i : Int)) := by
    intro i j hij
    simp only at hij
    omega
  exact List.Nodup.map hinj (List.nodup_range W)

theorem window_sorted (start : Int) (W : Nat) :
    ((List.range W).map (fun i : Nat => start + (i : Int))).Pairwise (· < ·) := by
  refine List.Pairwise.map _ ?_ (List.pairwise_lt_range W)
  intro a b hab
  omega

theorem freePortsWindow_spec (used : List Int) (start : Int) (n : Nat) :
    (freePortsWindow used start n).length = n ∧
    (freePortsWindow used start n).Pairwise (· < ·) ∧
    (∀ p ∈ freePortsWindow used start n, start ≤ p ∧ p ∉ used) ∧
    (∀ q : Int, start ≤ q → q ∉ used → q ∉ freePortsWindow used start n →
      ∀ p ∈ freePortsWindow used start n, p < q) := by
  classical
  set W := used.length + n with hW
  set cand := (List.range W).map (fun i : Nat => start + (i : Int)) with hcand
  set F := cand.filter (fun x => !used.contains x) with hF
  have hwin : freePortsWindow used start n = F.take n := rfl
  have hsubF : F.Sublist cand := List.filter_sublist cand
  have hnd : cand.Nodup := window_nodup start W
  have hFsort : F.Pairwise (· < ·) := List.Pairwise.sublist hsubF (window_sorted start W)
  have hcl : cand.length = W := by simp [hcand]
  have hsplit : F.length + (cand.filter (fun x => used.contains x)).length = cand.length := by
    rw [hF]
    exact length_filter_not_contains used cand
  have hGsub : ∀ x ∈ cand.filter (fun x => used.contains x), x ∈ used := by
    intro x hx
    have h2 := (List.mem_filter.mp hx).2
    simpa using h2
  have hGlen : (cand.filter (fun x => used.contains x)).length ≤ used.length :=
    (List.subperm_of_subset (hnd.filter _) hGsub).length_le
  have hFlen : n ≤ F.length := by
    rw [hcl] at hsplit
    omega
  have hrlen : (F.take n).length = n := by
    rw [List.length_take]
    omega
  refine ⟨hwin ▸ hrlen, hwin ▸ List.Pairwise.sublist (List.take_sublist n F) hFsort, ?_, ?_⟩
  · intro p hp
    rw [hwin] at hp
    have hpF : p ∈ F := List.take_subset n F hp
    have h1 := List.mem_filter.mp hpF
    refine ⟨(mem_window.mp h1.1).1, ?_⟩
    intro hpu
    have := h1.2
    simp [hpu] at this
  · intro q hq1 hq2 hq3 p hp
    rw [hwin] at hp hq3
    by_cases hqW : q < start + W
    · have hqcand : q ∈ cand := mem_window.mpr ⟨hq1, hqW⟩
      have hqF : q ∈ F := List.mem_filter.mpr ⟨hqcand, by simpa using hq2⟩
      have hqsplit : q ∈ F.take n ++ F.drop n := by
        rw [List.take_append_drop]
        exact hqF
      have hqdrop : q ∈ F.drop n := by
        rcases List.mem_append.mp hqsplit with hcase | hcase
        · exact absurd hcase hq3
        · exact hcase
      have hpapp : (F.take n ++ F.drop n).Pairwise (· < ·) := by
        rw [List.take_append_drop]
        exact hFsort
      exact (List.pairwise_append.mp hpapp).2.2 p hp q hqdrop
    · have hpcand : p ∈ cand := hsubF.subset (List.take_subset n F hp)
      have := (mem_window.mp hpcand).2
      omega

/-! ## Claim theorems -/

/-- Claim C4: for a host with an existing record and a well-formed daemon_url,
and a requested number n with 1 <= n and used-port count + n < 64000,
find_free_api_ports returns exactly the n smallest integers at least
CLUSTER_API_PORT_START that are not in the used-port set, in increasing
order (a sorted list of n free ports such that every free port not in the
list exceeds all of its members); with n = 0 it returns the empty list, and
when used-port count + n >= 64000 it fails by returning the empty failure
value. -/
theorem find_free_api_ports_correct :
    (∀ (db : DB) (host_id : String) (h : Host) (used : List Int) (number : Int),
      findOne db.hosts (fun x => x.id == host_id) = some h →
      (splitOnChar ':' h.daemon_url.data).length = 3 →
      ports_existed db host_id = some used →
      1 ≤ number → (used.length : Int) + number < 64000 →
      ∃ r, find_free_api_ports db host_id number = FPResult.ports r ∧
        r.length = number.toNat ∧ r.Pairwise (· < ·) ∧
        (∀ p ∈ r, (CLUSTER_API_PORT_START : Int) ≤ p ∧ p ∉ used) ∧
        (∀ q : Int, (CLUSTER_API_PORT_START : Int) ≤ q → q ∉ used → q ∉ r →
          ∀ p ∈ r, p < q)) ∧
    (∀ (db : DB) (host_id : String),
      find_free_api_ports db host_id 0 = FPResult.ports []) ∧
    (∀ (db : DB) (host_id : String) (h : Host) (used : List Int) (number : Int),
      findOne db.hosts (fun x => x.id == host_id) = some h →
      (splitOnChar ':' h.daemon_url.data).length = 3 →
      ports_existed db host_id = some used →
      1 ≤ number → 64000 ≤ (used.length : Int) + number →
      find_free_api_ports db host_id number = FPResult.ports []) := by
  refine ⟨?_, ?_, ?_⟩
  · intro db host_id h used number hh hseg hpe hn hlt
    have heval : find_free_api_ports db host_id number
        = FPResult.ports (freePortsWindow used (CLUSTER_API_PORT_START : Int) number.toNat) := by
      unfold find_free_api_ports
      rw [if_neg (show ¬ number ≤ 0 by omega), hh]
      dsimp only
      rw [hseg]
      rw [if_neg (show ¬ ((3 : Nat) != 3) = true by decide), hpe]
      dsimp only
      rw [if_neg (show ¬ (used.length : Int) + number ≥ 64000 by omega)]
      rfl
    obtain ⟨h1, h2, h3, h4⟩ := freePortsWindow_spec used (CLUSTER_API_PORT_START : Int) number.toNat
    exact ⟨_, heval, h1, h2, h3, h4⟩
  · intro db host_id
    unfold find_free_api_ports
    rw [if_pos (show (0 : Int) ≤ 0 by decide)]
  · intro db host_id h used number hh hseg hpe hn hge
    unfold find_free_api_ports
    rw [if_neg (show ¬ number ≤ 0 by omega), hh]
    dsimp only
    rw [hseg]
    rw [if_neg (show ¬ ((3 : Nat) != 3) = true by decide), hpe]
    dsimp only
    rw [if_pos (show (used.length : Int) + number ≥ 64000 by omega)]

/-- Host, cluster and state used to exercise the port allocator theorems on a
concrete input. -/
def egHost : Host :=
  { id := "h1", status := "active", daemon_url := "tcp://1.2.3.4:2375",
    capacity := 4, clusters := ["c1"] }

/-- An active cluster on egHost occupying port 7051. -/
def egCluster : Cluster :=
  { mongo_id := "m1", id := "c1", name := "n1", user_id := "", api_url := "http://1.2.3.4:7051",
    host_id := "h1", consensus_plugin := "", consensus_mode := "", size := 0,
    create_ts := 0, apply_ts := none, release_ts := none, node_containers := ["ct1"] }

/-- State with one host and one active cluster on it. -/
def egDB : DB := { active := [egCluster], released := [], hosts := [egHost] }

/-- Witness for C4 at a concrete input: one used port, two ports requested. -/
theorem find_free_api_ports_correct_witness :
    ∃ r, find_free_api_ports egDB "h1" 2 = FPResult.ports r ∧
      r.length = (2 : Int).toNat ∧ r.Pairwise (· < ·) ∧
      (∀ p ∈ r, (CLUSTER_API_PORT_START : Int) ≤ p ∧ p ∉ [(7051 : Int)]) ∧
      (∀ q : Int, (CLUSTER_API_PORT_START : Int) ≤ q → q ∉ [(7051 : Int)] → q ∉ r →
        ∀ p ∈ r, p < q) :=
  find_free_api_ports_correct.1 egDB "h1" egHost [(7051 : Int)] 2
    (by decide) (by decide) (by decide) (by decide) (by decide)

/-- Counterexample to claim C10 as stated: with the host record absent but
number = 0, find_free_api_ports returns the empty list, not the empty
string, because the number <= 0 check precedes the host lookup. -/
theorem find_free_api_ports_type_cex :
    findOne (DB.mk [] [] []).hosts (fun x => x.id == "h1") = none ∧
    find_free_api_ports (DB.mk [] [] []) "h1" 0 = FPResult.ports [] ∧
    FPResult.ports ([] : List Int) ≠ FPResult.str "" := by
  decide

/-- Claim C10 as amended: when number <= 0 the result is the empty list
regardless of the host; when 1 <= number and the host record is absent, or
its daemon_url does not split into exactly three colon-separated segments,
the result is the empty string; and when 1 <= number, the host exists, the
daemon_url is well-formed and every active api_url port parses, the result is
a list of ports — an inconsistent result type at the public interface. -/
theorem find_free_api_ports_type_amended :
    ∀ (db : DB) (host_id : String) (number : Int),
      (number ≤ 0 → find_free_api_ports db host_id number = FPResult.ports []) ∧
      (1 ≤ number → findOne db.hosts (fun x => x.id == host_id) = none →
        find_free_api_ports db host_id number = FPResult.str "") ∧
      (∀ h : Host, 1 ≤ number → findOne db.hosts (fun x => x.id == host_id) = some h →
        (splitOnChar ':' h.daemon_url.data).length ≠ 3 →
        find_free_api_ports db host_id number = FPResult.str "") ∧
      (∀ (h : Host) (used : List Int), 1 ≤ number →
        findOne db.hosts (fun x => x.id == host_id) = some h →
        (splitOnChar ':' h.daemon_url.data).length = 3 →
        ports_existed db host_id = some used →
        ∃ l, find_free_api_ports db host_id number = FPResult.ports l) := by
  intro db host_id number
  refine ⟨?_, ?_, ?_, ?_⟩
  · intro hn
    unfold find_free_api_ports
    rw [if_pos hn]
  · intro hn hnone
    unfold find_free_api_ports
    rw [if_neg (show ¬ number ≤ 0 by omega), hnone]
  · intro h hn hh hseg
    unfold find_free_api_ports
    rw [if_neg (show ¬ number ≤ 0 by omega), hh]
    dsimp only
    rw [if_pos (show ((splitOnChar ':' h.daemon_url.data).length != 3) = true by
      simpa using hseg)]
  · intro h used hn hh hseg hpe
    unfold find_free_api_ports
    rw [if_neg (show ¬ number ≤ 0 by omega), hh]
    dsimp only
    rw [hseg]
    rw [if_neg (show ¬ ((3 : Nat) != 3) = true by decide), hpe]
    dsimp only
    by_cases hth : (used.length : Int) + number ≥ 64000
    · rw [if_pos hth]
      exact ⟨[], rfl⟩
    · rw [if_neg hth]
      exact ⟨_, rfl⟩

/-- A find_one_and_update post-image comes from a matching record of the
collection. -/
theorem fOAU_fst_some {p : α → Bool} {f : α → α} {l : List α} {c : α}
    (h : (findOneAndUpdateAfter p f l).1 = some c) :
    ∃ a ∈ l, p a = true ∧ c = f a := by
  rw [fOAU_fst] at h
  cases hf : l.find? p with
  | none => rw [hf] at h; simp at h
  | some a =>
    rw [hf] at h
    simp only [Option.map_some', Option.some.injEq] at h
    exact ⟨a, List.mem_of_find?_eq_some hf, List.find?_some hf, h.symm⟩

/-- The record freshly inserted by create, after the id write-back and before
the final patch: user_id is the sentinel when no user_id was passed. -/
def newClusterRecord (api_url newId : String) (now : Nat)
    (name host_id user_id : String) : Cluster :=
  { mongo_id := newId, id := newId, name := name,
    user_id := if user_id == "" then "__NOT_READY_FOR_APPLY__" else user_id,
    api_url := api_url, host_id := host_id, consensus_plugin := "",
    consensus_mode := "", size := 0, create_ts := now, apply_ts := none,
    release_ts := none, node_containers := [] }

/-- The record left in active by a successful create, after the final patch
with the container list and the requested user_id. -/
def createdRecord (api_url newId : String) (now : Nat)
    (name host_id user_id : String) (containers : List String) : Cluster :=
  { mongo_id := newId, id := newId, name := name, user_id := user_id,
    api_url := api_url, host_id := host_id, consensus_plugin := "",
    consensus_mode := "", size := 0, create_ts := now, apply_ts := none,
    release_ts := none, node_containers := containers }

/-- Forced delete without archiving of a freshly appended record: it removes
exactly that record, touches neither released nor the hosts (the cluster id
was never attached), and succeeds. -/
theorem delete_fresh_noarchive (db : DB) (h : Host) (c1 : Cluster)
    (newId host_id : String) (now : Nat)
    (hh : findOne db.hosts (fun x => x.id == host_id) = some h)
    (hid : c1.id = newId) (hhostid : c1.host_id = host_id)
    (hfa : newId ∉ db.active.map Cluster.id)
    (hfh : newId ∉ h.clusters) :
    delete { active := db.active ++ [c1], released := db.released, hosts := db.hosts }
      newId "active" false true now = (true, db) := by
  simp only [findOne] at hh
  have hfindnone : db.active.find? (fun c => c.id == newId) = none :=
    find?_eq_none_of_not_mem_map hfa _ (fun x hx => by simpa using hx)
  have hfind : (db.active ++ [c1]).find? (fun c => c.id == newId) = some c1 := by
    rw [find?_append_none hfindnone]
    simp [List.find?_cons, hid]
  have herase : (fun h2 : Host => { h2 with clusters := h.clusters.erase newId }) h = h := by
    rw [List.erase_of_not_mem hfh]
  have hhosts : updateFirst (fun h2 : Host => h2.id == host_id)
      (fun h2 => { h2 with clusters := h.clusters.erase newId }) db.hosts = db.hosts :=
    updateFirst_eq_of_fix hh herase
  have hact : (db.active ++ [c1]).eraseP (fun c2 => c2.id == newId) = db.active := by
    refine eraseP_append_last ?_ (by simp [hid])
    intro x hx
    by_contra hcon
    simp only [Bool.not_eq_false, beq_iff_eq] at hcon
    exact hfa (List.mem_map.mpr ⟨x, hx, hcon⟩)
  unfold delete
  simp only [findOne, beq_self_eq_true, Bool.not_true, Bool.and_false, Bool.false_eq_true,
    if_false, if_true, Bool.and_true]
  rw [hfind]
  dsimp only
  rw [hhostid, hh]
  dsimp only
  rw [hhosts, hact]

/-- Forced delete with archiving right after a successful create of a fresh
record on host h: the record moves to released with its release_ts filled,
the cluster id is removed again from the host record, and the state returns
to the pre-create one except for the archive. -/
theorem delete_fresh_archive (db : DB) (h : Host) (c1 : Cluster)
    (newId host_id : String) (now : Nat)
    (hh : findOne db.hosts (fun x => x.id == host_id) = some h)
    (hid : c1.id = newId) (hhostid : c1.host_id = host_id)
    (hrel : c1.release_ts = none)
    (hfa : newId ∉ db.active.map Cluster.id)
    (hfh : newId ∉ h.clusters) :
    delete { active := db.active ++ [c1], released := db.released,
             hosts := updateFirst (fun x : Host => x.id == host_id) (fun x => { x with clusters := h.clusters ++ [newId] }) db.hosts }
      newId "active" true true now
    = (true, { active := db.active, released := db.released ++ [{ c1 with release_ts := some now }], hosts := db.hosts }) := by
  simp only [findOne] at hh
  have hfindnone : db.active.find? (fun c => c.id == newId) = none :=
    find?_eq_none_of_not_mem_map hfa _ (fun x hx => by simpa using hx)
  have hfind : (db.active ++ [c1]).find? (fun c => c.id == newId) = some c1 := by
    rw [find?_append_none hfindnone]
    simp [List.find?_cons, hid]
  have hph := List.find?_some hh
  have hfind2 : (updateFirst (fun x : Host => x.id == host_id)
      (fun x => { x with clusters := h.clusters ++ [newId] }) db.hosts).find?
        (fun x => x.id == host_id)
      = some { h with clusters := h.clusters ++ [newId] } :=
    find?_updateFirst_first hh hph
  have herase : (h.clusters ++ [newId]).erase newId = h.clusters := by
    rw [List.erase_append_right _ hfh]
    simp
  have hcomp : updateFirst (fun x : Host => x.id == host_id)
      (fun h2 => { h2 with clusters := (h.clusters ++ [newId]).erase newId })
      (updateFirst (fun x : Host => x.id == host_id)
        (fun x => { x with clusters := h.clusters ++ [newId] }) db.hosts)
      = db.hosts := by
    rw [updateFirst_updateFirst hh hph]
    refine updateFirst_eq_of_fix hh ?_
    rw [herase]
  have hact : (db.active ++ [c1]).eraseP (fun c2 => c2.id == newId) = db.active := by
    refine eraseP_append_last ?_ (by simp [hid])
    intro x hx
    by_contra hcon
    simp only [Bool.not_eq_false, beq_iff_eq] at hcon
    exact hfa (List.mem_map.mpr ⟨x, hx, hcon⟩)
  unfold delete
  simp only [findOne, beq_self_eq_true, Bool.not_true, Bool.and_false, Bool.false_eq_true,
    if_false, if_true, Bool.and_true, Bool.and_self]
  rw [hfind]
  dsimp only
  rw [hrel]
  simp only [beq_self_eq_true, if_true, reduceIte]
  rw [hhostid, hfind2]
  dsimp only
  rw [hcomp, hact]

/-- The failure path of create: when the host exists with spare capacity and
a reachable daemon but the composition start raises or returns no container,
create force-deletes the record it inserted (no archive) and returns None,
leaving the state exactly as before the call. -/
theorem create_fail_restores (db : DB) (testDaemon : String → Bool)
    (composeResult : Except String (List String)) (newId : String) (now : Nat)
    (name host_id : String) (api_port : Int) (user_id : String) (h : Host)
    (hh : findOne db.hosts (fun x => x.id == host_id) = some h)
    (hcap : (h.clusters.length : Int) < h.capacity)
    (htd : testDaemon h.daemon_url = true)
    (hcomp : ∀ cs, composeResult = Except.ok cs → cs = [])
    (hfa : newId ∉ db.active.map Cluster.id)
    (hfm : newId ∉ db.active.map Cluster.mongo_id)
    (hfh : newId ∉ h.clusters) :
    create db testDaemon composeResult newId now name host_id api_port user_id
      = (none, db) := by
  have hfmnone : db.active.find? (fun x => x.mongo_id == newId) = none :=
    find?_eq_none_of_not_mem_map hfm _ (fun x hx => by simpa using hx)
  unfold create
  rw [hh]
  dsimp only
  rw [if_neg (not_le.mpr hcap), htd]
  simp only [Bool.not_true, Bool.false_eq_true, if_false]
  rw [updateFirst_append_none hfmnone, updateFirst_singleton (by simp)]
  cases composeResult with
  | error e =>
    dsimp only
    rw [delete_fresh_noarchive db h _ newId host_id now hh rfl rfl hfa hfh]
  | ok cs =>
    have hcs : cs = [] := hcomp cs rfl
    subst hcs
    dsimp only
    rw [if_pos (show ([] : List String).isEmpty = true from rfl)]
    rw [delete_fresh_noarchive db h _ newId host_id now hh rfl rfl hfa hfh]

/-- The success path of create: when the composition start returns a
non-empty container list, create returns the new id, appends the patched
record to active, and appends the id to the clusters of the host record. -/
theorem create_success (db : DB) (testDaemon : String → Bool)
    (containers : List String) (newId : String) (now : Nat)
    (name host_id : String) (api_port : Int) (user_id : String) (h : Host)
    (hh : findOne db.hosts (fun x => x.id == host_id) = some h)
    (hcap : (h.clusters.length : Int) < h.capacity)
    (htd : testDaemon h.daemon_url = true)
    (hne : containers ≠ [])
    (hfm : newId ∉ db.active.map Cluster.mongo_id) :
    create db testDaemon (Except.ok containers) newId now name host_id api_port user_id
      = (some newId,
         { active := db.active ++ [createdRecord (gen_api_url db host_id api_port) newId now name host_id user_id containers],
           released := db.released,
           hosts := updateFirst (fun x : Host => x.id == host_id) (fun x => { x with clusters := h.clusters ++ [newId] }) db.hosts }) := by
  have hfmnone : db.active.find? (fun x => x.mongo_id == newId) = none :=
    find?_eq_none_of_not_mem_map hfm _ (fun x hx => by simpa using hx)
  unfold create
  rw [hh]
  dsimp only
  rw [if_neg (not_le.mpr hcap), htd]
  simp only [Bool.not_true, Bool.false_eq_true, if_false]
  rw [updateFirst_append_none hfmnone, updateFirst_singleton (by simp)]
  dsimp only
  rw [if_neg (fun hc => hne (by simpa using hc))]
  rw [show findOne db.hosts (fun h2 : Host => h2.id == host_id) = some h from hh]
  dsimp only
  rw [updateFirst_append_none hfmnone, updateFirst_singleton (by simp)]
  rfl

/-- Claim C5: create is all-or-nothing with respect to the stores.  When the
record was inserted (host present, spare capacity, reachable daemon) but
start_composition raises or returns an empty container list, create performs
the forced delete of the just-inserted record without archiving and returns
failure, so the state after a failed create equals the state before it: in
particular no record of the attempt remains in active. -/
theorem create_all_or_nothing :
    ∀ (db : DB) (testDaemon : String → Bool) (composeResult : Except String (List String))
      (newId : String) (now : Nat) (name host_id : String) (api_port : Int)
      (user_id : String) (h : Host),
      findOne db.hosts (fun x => x.id == host_id) = some h →
      (h.clusters.length : Int) < h.capacity →
      testDaemon h.daemon_url = true →
      (∀ cs, composeResult = Except.ok cs → cs = []) →
      newId ∉ db.active.map Cluster.id →
      newId ∉ db.active.map Cluster.mongo_id →
      newId ∉ h.clusters →
      create db testDaemon composeResult newId now name host_id api_port user_id = (none, db) ∧
      (create db testDaemon composeResult newId now name host_id api_port user_id).2.active = db.active :=
  fun db testDaemon composeResult newId now name host_id api_port user_id h
      hh hcap htd hcomp hfa hfm hfh =>
    have he := create_fail_restores db testDaemon composeResult newId now name
      host_id api_port user_id h hh hcap htd hcomp hfa hfm hfh
    ⟨he, by rw [he]⟩

/-- Witness for C5 on a concrete input: the composition raises, create
returns None and the state is untouched. -/
theorem create_all_or_nothing_witness :
    create egDB (fun _ => true) (Except.error "compose error") "X1" 5 "n2" "h1" 0 ""
      = (none, egDB) ∧
    (create egDB (fun _ => true) (Except.error "compose error") "X1" 5 "n2" "h1" 0 "").2.active
      = egDB.active :=
  create_all_or_nothing egDB (fun _ => true) (Except.error "compose error") "X1" 5 "n2" "h1" 0 ""
    egHost (by decide) (by decide) rfl (fun cs h => nomatch h) (by decide) (by decide) (by decide)

/-- _gen_api_url on a daemon_url that does not split into exactly three
colon-separated segments: it returns the empty string. -/
theorem gen_api_url_malformed (db : DB) (host_id : String) (api_port : Int) (h : Host)
    (hh : findOne db.hosts (fun x => x.id == host_id) = some h)
    (hseg : (splitOnChar ':' h.daemon_url.data).length ≠ 3) :
    gen_api_url db host_id api_port = "" := by
  unfold gen_api_url
  rw [hh]
  dsimp only
  rw [if_pos (by simpa using hseg)]

/-- A host whose daemon_url has only two colon-separated segments. -/
def badHost : Host :=
  { id := "h1", status := "active", daemon_url := "tcp://1.2.3.4", capacity := 4, clusters := [] }

/-- State holding only badHost. -/
def badDB : DB := { active := [], released := [], hosts := [badHost] }

/-- Counterexample to claim C6 as stated: with a malformed daemon_url (two
segments instead of three), a reachable daemon, spare capacity and a
composition that starts fine, create does not fail and it does insert: it
returns the new id and the active collection gains a record whose api_url is
the empty string. -/
theorem create_malformed_daemon_cex :
    (splitOnChar ':' badHost.daemon_url.data).length ≠ 3 ∧
    (create badDB (fun _ => true) (Except.ok ["ct1"]) "X1" 5 "c1" "h1" 0 "").1 = some "X1" ∧
    ((create badDB (fun _ => true) (Except.ok ["ct1"]) "X1" 5 "c1" "h1" 0 "").2.active.map Cluster.api_url) = [""] := by
  decide

/-- Claim C6 as amended: a daemon_url that does not split into exactly three
colon-separated segments makes _gen_api_url return the empty string, but
create does not validate this: it inserts a record whose api_url is "" and
proceeds to start the composition; it fails (restoring the state) only when
the composition start raises or returns no container, and on a non-empty
container list it succeeds, leaving a record with an empty api_url in
active. -/
theorem create_malformed_daemon_amended :
    ∀ (db : DB) (testDaemon : String → Bool) (composeResult : Except String (List String))
      (newId : String) (now : Nat) (name host_id : String) (api_port : Int)
      (user_id : String) (h : Host),
      findOne db.hosts (fun x => x.id == host_id) = some h →
      (splitOnChar ':' h.daemon_url.data).length ≠ 3 →
      (h.clusters.length : Int) < h.capacity →
      testDaemon h.daemon_url = true →
      newId ∉ db.active.map Cluster.id →
      newId ∉ db.active.map Cluster.mongo_id →
      newId ∉ h.clusters →
      (gen_api_url db host_id api_port = "" ∧
       (∀ cs, composeResult = Except.ok cs → cs ≠ [] →
         create db testDaemon composeResult newId now name host_id api_port user_id
           = (some newId, { active := db.active ++ [createdRecord "" newId now name host_id user_id cs], released := db.released, hosts := updateFirst (fun x : Host => x.id == host_id) (fun x => { x with clusters := h.clusters ++ [newId] }) db.hosts })) ∧
       ((∀ cs, composeResult = Except.ok cs → cs = []) →
         create db testDaemon composeResult newId now name host_id api_port user_id
           = (none, db))) := by
  intro db testDaemon composeResult newId now name host_id api_port user_id h
    hh hseg hcap htd hfa hfm hfh
  have hgen : gen_api_url db host_id api_port = "" :=
    gen_api_url_malformed db host_id api_port h hh hseg
  refine ⟨hgen, ?_, ?_⟩
  · intro cs hcs hne
    subst hcs
    have := create_success db testDaemon cs newId now name host_id api_port user_id h
      hh hcap htd hne hfm
    rw [hgen] at this
    exact this
  · intro hcomp
    exact create_fail_restores db testDaemon composeResult newId now name host_id
      api_port user_id h hh hcap htd hcomp hfa hfm hfh

/-- Witness for the amended C6 on a concrete input: the composition starts
with one container, create succeeds and the inserted record has an empty
api_url; with a raising composition, the state is restored. -/
theorem create_malformed_daemon_amended_witness :
    gen_api_url badDB "h1" 0 = "" ∧
    create badDB (fun _ => true) (Except.ok ["ct1"]) "X1" 5 "c1" "h1" 0 ""
      = (some "X1", { active := badDB.active ++ [createdRecord "" "X1" 5 "c1" "h1" "" ["ct1"]], released := badDB.released, hosts := updateFirst (fun x : Host => x.id == "h1") (fun x => { x with clusters := badHost.clusters ++ ["X1"] }) badDB.hosts }) ∧
    create badDB (fun _ => true) (Except.error "compose error") "X1" 5 "c1" "h1" 0 ""
      = (none, badDB) := by
  have h1 := create_malformed_daemon_amended badDB (fun _ => true) (Except.ok ["ct1"])
    "X1" 5 "c1" "h1" 0 "" badHost (by decide) (by decide) (by decide) rfl
    (by decide) (by decide) (by decide)
  have h2 := create_malformed_daemon_amended badDB (fun _ => true) (Except.error "compose error")
    "X1" 5 "c1" "h1" 0 "" badHost (by decide) (by decide) (by decide) rfl
    (by decide) (by decide) (by decide)
  exact ⟨h1.1, h1.2.1 ["ct1"] rfl (by decide), h2.2.2 (fun cs hcs => nomatch hcs)⟩

/-- Claim C8: round trip.  A successful create on host H returns an id X with
the state gaining the new record and H gaining X in its clusters list; the
subsequent delete(X, forced, archive) succeeds, X is present in released,
absent from active (which returns to its pre-create value), and X is removed
again from the clusters list of H, whose length drops back by one. -/
theorem create_delete_roundtrip :
    ∀ (db : DB) (testDaemon : String → Bool) (containers : List String)
      (newId : String) (now now2 : Nat) (name host_id : String) (api_port : Int)
      (user_id : String) (h : Host),
      findOne db.hosts (fun x => x.id == host_id) = some h →
      (h.clusters.length : Int) < h.capacity →
      testDaemon h.daemon_url = true →
      containers ≠ [] →
      newId ∉ db.active.map Cluster.id →
      newId ∉ db.active.map Cluster.mongo_id →
      newId ∉ h.clusters →
      ∃ db1 db2,
        create db testDaemon (Except.ok containers) newId now name host_id api_port user_id
          = (some newId, db1) ∧
        delete db1 newId "active" true true now2 = (true, db2) ∧
        (∃ c ∈ db2.released, c.id = newId) ∧
        newId ∉ db2.active.map Cluster.id ∧
        db2.active = db.active ∧
        (findOne db1.hosts (fun x => x.id == host_id)).map Host.clusters
          = some (h.clusters ++ [newId]) ∧
        (findOne db2.hosts (fun x => x.id == host_id)).map Host.clusters
          = some h.clusters ∧
        (h.clusters ++ [newId]).length = h.clusters.length + 1 := by
  intro db testDaemon containers newId now now2 name host_id api_port user_id h
    hh hcap htd hne hfa hfm hfh
  have hph := List.find?_some (show db.hosts.find? (fun x => x.id == host_id) = some h from hh)
  have hcreate := create_success db testDaemon containers newId now name host_id
    api_port user_id h hh hcap htd hne hfm
  have hdelete := delete_fresh_archive db h
    (createdRecord (gen_api_url db host_id api_port) newId now name host_id user_id containers)
    newId host_id now2 hh rfl rfl rfl hfa hfh
  refine ⟨_, _, hcreate, hdelete, ?_, ?_, rfl, ?_, ?_, by simp⟩
  · exact ⟨_, List.mem_append_right _ (List.mem_singleton.mpr rfl), rfl⟩
  · exact hfa
  · have hfind2 : (updateFirst (fun x : Host => x.id == host_id)
        (fun x => { x with clusters := h.clusters ++ [newId] }) db.hosts).find?
          (fun x => x.id == host_id)
        = some { h with clusters := h.clusters ++ [newId] } :=
      find?_updateFirst_first (show db.hosts.find? (fun x => x.id == host_id) = some h from hh) hph
    simp only [findOne]
    rw [hfind2]
    rfl
  · simp only [findOne]
    rw [show db.hosts.find? (fun x => x.id == host_id) = some h from hh]
    rfl

/-- Witness for C8 on a concrete input: create then archive-delete on egDB
with a fresh id. -/
theorem create_delete_roundtrip_witness :
    ∃ db1 db2,
      create egDB (fun _ => true) (Except.ok ["ct9"]) "X1" 5 "n2" "h1" 0 "u9"
        = (some "X1", db1) ∧
      delete db1 "X1" "active" true true 9 = (true, db2) ∧
      (∃ c ∈ db2.released, c.id = "X1") ∧
      "X1" ∉ db2.active.map Cluster.id ∧
      db2.active = egDB.active ∧
      (findOne db1.hosts (fun x => x.id == "h1")).map Host.clusters
        = some (egHost.clusters ++ ["X1"]) ∧
      (findOne db2.hosts (fun x => x.id == "h1")).map Host.clusters
        = some egHost.clusters ∧
      (egHost.clusters ++ ["X1"]).length = egHost.clusters.length + 1 :=
  create_delete_roundtrip egDB (fun _ => true) ["ct9"] "X1" 5 9 "n2" "h1" 0 "u9" egHost
    (by decide) (by decide) rfl (by decide) (by decide) (by decide) (by decide)

/-- Claim C2 (code evaluation): the background recycle task spawned by a
successful release performs the forced archive delete of the released record
and then raises TypeError at the self.create(cluster_name, host_id,
api_url=cluster_api_url) call, because create has no api_url parameter; so no
replacement cluster is ever created, whatever a successful create would have
done, and the resulting state is exactly the state after the delete. -/
theorem delete_recreate_work_raises :
    ∀ (createOutcome : DB → Option String × DB) (db : DB) (c : Cluster) (now : Nat),
      (delete_recreate_work createOutcome db c now).2
        = Except.error "TypeError: create() got an unexpected keyword argument" ∧
      (delete_recreate_work createOutcome db c now).1
        = (delete db c.id "active" true true now).2 := by
  intro co db c now
  have hkb : keywordsBind create_param_names recycle_create_keywords = false := by decide
  simp [delete_recreate_work, hkb]

/-- The state component produced by release_cluster_by_id: whatever branch is
taken, the active collection is the one produced by the single
find_one_and_update. -/
theorem release_by_id_snd (db : DB) (cluster_id : String) (now : Nat) :
    (release_cluster_by_id db cluster_id now).2 = { db with active := updateFirst (fun c => c.id == cluster_id && c.release_ts == none) (fun c => { c with release_ts := some now }) db.active } := by
  unfold release_cluster_by_id
  dsimp only
  cases hf : (findOneAndUpdateAfter (fun c => c.id == cluster_id && c.release_ts == none) (fun c => { c with release_ts := some now }) db.active).1 with
  | none => rw [fOAU_snd]
  | some a =>
    dsimp only
    rw [fOAU_snd]
    split <;> rfl

/-- The success flag produced by release_cluster_by_id: whether a matching
record was found (the post-image release_ts is never empty, so the second
failure condition of the source never fires). -/
theorem release_by_id_fst (db : DB) (cluster_id : String) (now : Nat) :
    (release_cluster_by_id db cluster_id now).1 = (db.active.find? (fun c => c.id == cluster_id && c.release_ts == none)).isSome := by
  unfold release_cluster_by_id
  dsimp only
  rw [fOAU_fst]
  cases hf : db.active.find? (fun c => c.id == cluster_id && c.release_ts == none) with
  | none => rfl
  | some a =>
    dsimp only [Option.map_some']
    rw [show (({ a with release_ts := some now } : Cluster).release_ts == none) = false from rfl]
    simp

/-- Claim C3: release by cluster_id selects the active record with that id
and an empty release_ts, fails exactly when no such record exists (the
post-image release_ts is never empty, so the second failure condition of the
source never fires), leaves the state unchanged on failure, and on success
patches exactly the first such record with release_ts = now. -/
theorem release_cluster_by_id_correct :
    ∀ (db : DB) (cluster_id : String) (now : Nat),
      ((release_cluster_by_id db cluster_id now).1 = true ↔
        ∃ c ∈ db.active, c.id = cluster_id ∧ c.release_ts = none) ∧
      ((release_cluster_by_id db cluster_id now).1 = false →
        (release_cluster_by_id db cluster_id now).2 = db) ∧
      ((release_cluster_by_id db cluster_id now).1 = true →
        (release_cluster_by_id db cluster_id now).2.active
          = updateFirst (fun c => c.id == cluster_id && c.release_ts == none)
              (fun c => { c with release_ts := some now }) db.active) := by
  intro db cluster_id now
  refine ⟨?_, ?_, ?_⟩
  · rw [release_by_id_fst]
    constructor
    · intro h
      obtain ⟨a, ha⟩ := Option.isSome_iff_exists.mp h
      have hpa := List.find?_some ha
      have hma := List.mem_of_find?_eq_some ha
      have hsplit := (Bool.and_eq_true _ _).mp hpa
      exact ⟨a, hma, by simpa using hsplit.1, by simpa using hsplit.2⟩
    · rintro ⟨c, hc, hid, hrel⟩
      cases hfind : db.active.find? (fun c => c.id == cluster_id && c.release_ts == none) with
      | none =>
        exact absurd (show (c.id == cluster_id && c.release_ts == none) = true by
          simp [hid, hrel]) (List.find?_eq_none.mp hfind c hc)
      | some a => rfl
  · intro hfalse
    rw [release_by_id_fst] at hfalse
    have hnone : db.active.find? (fun c => c.id == cluster_id && c.release_ts == none) = none := by
      cases hfind : db.active.find? (fun c => c.id == cluster_id && c.release_ts == none) with
      | none => rfl
      | some a => rw [hfind] at hfalse; simp at hfalse
    rw [release_by_id_snd, updateFirst_of_find?_none hnone]
  · intro _
    rw [release_by_id_snd]

/-- Witness for C3 on concrete inputs: releasing the one matching cluster
succeeds and patches its release_ts exactly as stated. -/
theorem release_cluster_by_id_correct_witness :
    ((release_cluster_by_id egDB "c1" 7).1 = true) ∧
    (release_cluster_by_id egDB "c1" 7).2.active
      = updateFirst (fun c => c.id == "c1" && c.release_ts == none)
          (fun c => { c with release_ts := some 7 }) egDB.active := by
  have h := release_cluster_by_id_correct egDB "c1" 7
  have h1 : (release_cluster_by_id egDB "c1" 7).1 = true :=
    h.1.mpr ⟨egCluster, by decide, by decide, by decide⟩
  exact ⟨h1, h.2.2 h1⟩

/-- The active collection after apply_cluster: either untouched, or the
result of the single atomic find_one_and_update claim with predicate
user_id == "". -/
theorem apply_cluster_snd_active (db : DB) (u : String) (now : Nat) :
    (apply_cluster db u now).2.active = db.active ∨
    (apply_cluster db u now).2.active
      = updateFirst (fun c => c.user_id == "")
          (fun c => { c with user_id := u, apply_ts := some now }) db.active := by
  unfold apply_cluster
  cases hh : findOne db.hosts (fun h => h.status == "active") with
  | none => left; rfl
  | some h =>
    dsimp only
    cases hl : findOne db.active
        (fun c => c.user_id == u && c.release_ts == none && c.host_id == h.id) with
    | some c =>
      dsimp only
      left
      split <;> rfl
    | none =>
      dsimp only
      right
      cases hf : (findOneAndUpdateAfter (fun c => c.user_id == "") (fun c => { c with user_id := u, apply_ts := some now }) db.active).1 with
      | none => rw [fOAU_snd]
      | some a =>
        dsimp only
        rw [fOAU_snd]
        split <;> rfl

/-- Claim C9: apply never grants a lease on a provisioning cluster.  The
atomic claim of apply_cluster only selects records whose user_id is the empty
string, so any record it changes was idle immediately before the claim and in
particular never carried the sentinel "__NOT_READY_FOR_APPLY__": the active
collection keeps its length, and any position whose record differs after
apply_cluster held an idle record before. -/
theorem apply_cluster_never_claims_provisioning :
    ∀ (db : DB) (user_id : String) (now : Nat) (i : Nat) (d : Cluster),
      i < db.active.length →
      ((apply_cluster db user_id now).2.active.length = db.active.length ∧
       (((apply_cluster db user_id now).2.active.getD i d ≠ db.active.getD i d) →
         (db.active.getD i d).user_id = "" ∧
         (db.active.getD i d).user_id ≠ "__NOT_READY_FOR_APPLY__")) := by
  intro db user_id now i d _
  rcases apply_cluster_snd_active db user_id now with hact | hact
  · rw [hact]
    exact ⟨rfl, fun hne => absurd rfl hne⟩
  · rw [hact]
    refine ⟨updateFirst_length _ _ _, fun hne => ?_⟩
    have hidle : ((db.active.getD i d).user_id == "") = true := updateFirst_getD_ne d i hne
    have hidle' : (db.active.getD i d).user_id = "" := by simpa using hidle
    exact ⟨hidle', by rw [hidle']; decide⟩

/-- Witness for C9 on a concrete input: applying on a pool with one idle
cluster changes position 0, which indeed held an idle, non-sentinel record. -/
theorem apply_cluster_never_claims_provisioning_witness :
    (apply_cluster egDB "u1" 3).2.active.length = egDB.active.length ∧
    (((apply_cluster egDB "u1" 3).2.active.getD 0 egCluster ≠ egDB.active.getD 0 egCluster) →
      (egDB.active.getD 0 egCluster).user_id = "" ∧
      (egDB.active.getD 0 egCluster).user_id ≠ "__NOT_READY_FOR_APPLY__") :=
  apply_cluster_never_claims_provisioning egDB "u1" 3 0 egCluster (by decide)

/-- First host of the C7 counterexample state: hB is listed first, so the
active-host lookup returns it. -/
def c7HostB : Host :=
  { id := "hB", status := "active", daemon_url := "tcp://2.2.2.2:2375",
    capacity := 10, clusters := ["cB"] }

/-- Second host of the C7 counterexample state. -/
def c7HostA : Host :=
  { id := "hA", status := "active", daemon_url := "tcp://1.1.1.1:2375",
    capacity := 10, clusters := ["cA"] }

/-- Idle cluster on host hA, listed first in active. -/
def c7ClusterA : Cluster :=
  { mongo_id := "mA", id := "cA", name := "nA", user_id := "",
    api_url := "http://1.1.1.1:7050", host_id := "hA", consensus_plugin := "",
    consensus_mode := "", size := 0, create_ts := 0, apply_ts := none,
    release_ts := none, node_containers := ["kA"] }

/-- Idle cluster on host hB. -/
def c7ClusterB : Cluster :=
  { mongo_id := "mB", id := "cB", name := "nB", user_id := "",
    api_url := "http://2.2.2.2:7050", host_id := "hB", consensus_plugin := "",
    consensus_mode := "", size := 0, create_ts := 0, apply_ts := none,
    release_ts := none, node_containers := ["kB"] }

/-- Two active hosts, two idle clusters; hB comes first in the host
collection while the first idle cluster lives on hA. -/
def c7DB : DB :=
  { active := [c7ClusterA, c7ClusterB], released := [], hosts := [c7HostB, c7HostA] }

/-- Counterexample to claim C7 as stated: apply(u1) claims cluster cA (on
host hA), so afterwards u1 holds the lease on cA with an empty release_ts;
yet a second apply(u1) returns cB, not cA, because the already-leased lookup
is scoped to the first host with status "active" (hB here), misses the lease
on hA, and the atomic claim then grabs the next idle cluster. -/
theorem apply_cluster_idempotence_cex :
    (apply_cluster c7DB "u1" 1).1.map ApplyResult.id = some "cA" ∧
    (apply_cluster c7DB "u1" 1).2.active.any
      (fun c => c.user_id == "u1" && c.release_ts == none && c.id == "cA") = true ∧
    (apply_cluster (apply_cluster c7DB "u1" 1).2 "u1" 2).1.map ApplyResult.id = some "cB" ∧
    ("cA" : String) ≠ "cB" := by
  decide

/-- Claim C7 as amended: the second apply(u) is idempotent exactly when the
leased cluster of u lies on the host returned by the active-host lookup:
when the first host with status "active" is h and the first active record
with user_id u, empty release_ts and host_id h.id is c, apply(u) returns the
projection of c with the daemon_url of h and leaves the state unchanged,
claiming no further idle cluster. -/
theorem apply_cluster_idempotent_same_host :
    ∀ (db : DB) (u : String) (now : Nat) (h : Host) (c : Cluster),
      findOne db.hosts (fun x => x.status == "active") = some h →
      findOne db.active (fun x => x.user_id == u && x.release_ts == none && x.host_id == h.id) = some c →
      apply_cluster db u now = (some (mkApplyResult c h), db) := by
  intro db u now h c hh hl
  have hcu : (c.user_id == u) = true := by
    have := List.find?_some (show db.active.find? (fun x => x.user_id == u && x.release_ts == none && x.host_id == h.id) = some c from hl)
    simp only [Bool.and_eq_true] at this
    exact this.1.1
  unfold apply_cluster
  rw [hh]
  dsimp only
  rw [hl]
  dsimp only
  rw [if_pos hcu]
  rfl

/-- The lease of the C7 amended witness: u1 holds cA on host hA, which is
the first (and only) active host of the state. -/
def c7Leased : Cluster :=
  { c7ClusterA with user_id := "u1" }

/-- State where the lease of u1 lies on the first active host. -/
def c7DB2 : DB :=
  { active := [c7Leased], released := [], hosts := [c7HostA] }

/-- Witness for the amended C7 on a concrete input: apply(u1) returns the
existing lease and changes nothing. -/
theorem apply_cluster_idempotent_same_host_witness :
    apply_cluster c7DB2 "u1" 5 = (some (mkApplyResult c7Leased c7HostA), c7DB2) :=
  apply_cluster_idempotent_same_host c7DB2 "u1" 5 c7HostA c7Leased (by decide) (by decide)

/-- Claim C1 (spec-modelled): in the handler generation called by the REST
facade, when apply takes the fresh-claim path (no existing lease was found,
or allow_multiple is truthy) with a non-empty condition and returns a
cluster, that cluster is the post-image of the single atomic
find_one_and_update whose predicate requires user_id == "" and the condition:
its pre-image was idle and matched every constraint, the post-image still
matches every constraint, and the returned projection carries the requesting
user. -/
theorem apply_cluster_cond_matches :
    ∀ (db : DB) (u : String) (cond : Condition) (allow_multiple : Bool) (now : Nat)
      (h : Host) (res : ApplyResult),
      cond.isEmpty = false →
      findOne db.hosts (fun x => x.status == "active") = some h →
      (if allow_multiple then none else findOne db.active
        (fun c => c.user_id == u && c.release_ts == none && c.host_id == h.id)) = none →
      (apply_cluster_cond db u cond allow_multiple now).1 = some res →
      ∃ pre ∈ db.active, pre.user_id = "" ∧ matchesCondition cond pre = true ∧
        matchesCondition cond { pre with user_id := u, apply_ts := some now } = true ∧
        res = mkApplyResult { pre with user_id := u, apply_ts := some now } h ∧
        res.user_id = u := by
  intro db u cond am now h res hne hh hex happ
  unfold apply_cluster_cond at happ
  rw [hh] at happ
  dsimp only at happ
  rw [hex] at happ
  dsimp only at happ
  cases hf : (findOneAndUpdateAfter (fun c => c.user_id == "" && matchesCondition cond c)
      (fun c => { c with user_id := u, apply_ts := some now }) db.active).1 with
  | none =>
    rw [hf] at happ
    simp at happ
  | some po =>
    rw [hf] at happ
    dsimp only at happ
    obtain ⟨pre, hmem, hp, hpo⟩ := fOAU_fst_some hf
    have hpre := (Bool.and_eq_true _ _).mp hp
    have hpou : po.user_id = u := by rw [hpo]
    rw [if_pos (by simp [hpou])] at happ
    simp only [Option.some.injEq] at happ
    refine ⟨pre, hmem, by simpa using hpre.1, hpre.2, ?_, ?_, ?_⟩
    · have : matchesCondition cond { pre with user_id := u, apply_ts := some now }
          = matchesCondition cond pre := rfl
      rw [this]
      exact hpre.2
    · rw [← happ, hpo]
    · rw [← happ, hpo]
      rfl

/-- Idle cluster with shape attributes, for the C1 witness. -/
def c1Cluster : Cluster :=
  { mongo_id := "m9", id := "c9", name := "n9", user_id := "",
    api_url := "http://1.1.1.1:7050", host_id := "hA",
    consensus_plugin := "pbft", consensus_mode := "batch", size := 4,
    create_ts := 0, apply_ts := none, release_ts := none, node_containers := ["k9"] }

/-- State for the C1 witness: one idle pbft cluster of size 4 on one active
host. -/
def c1DB : DB := { active := [c1Cluster], released := [], hosts := [c7HostA] }

/-- A non-empty condition constraining plugin and size. -/
def c1Cond : Condition :=
  { consensus_plugin := some "pbft", consensus_mode := none, size := some 4 }

/-- Witness for C1 on a concrete input: the fresh claim under the condition
pbft/size 4 returns the matching idle cluster, claimed for u1. -/
theorem apply_cluster_cond_matches_witness :
    ∃ pre ∈ c1DB.active, pre.user_id = "" ∧ matchesCondition c1Cond pre = true ∧
      matchesCondition c1Cond { pre with user_id := "u1", apply_ts := some 3 } = true ∧
      mkApplyResult { c1Cluster with user_id := "u1", apply_ts := some 3 } c7HostA
        = mkApplyResult { pre with user_id := "u1", apply_ts := some 3 } c7HostA ∧
      (mkApplyResult { c1Cluster with user_id := "u1", apply_ts := some 3 } c7HostA).user_id = "u1" :=
  apply_cluster_cond_matches c1DB "u1" c1Cond false 3 c7HostA
    (mkApplyResult { c1Cluster with user_id := "u1", apply_ts := some 3 } c7HostA)
    (by decide) (by decide) (by decide) (by decide)

/-- Witness for the amended C10, exercising all four branches on concrete
inputs: number 0 on the empty state, number 1 on the empty state, number 1 on
a host with a malformed daemon_url, and number 1 on a well-formed host. -/
theorem find_free_api_ports_type_amended_witness :
    find_free_api_ports (DB.mk [] [] []) "h1" 0 = FPResult.ports [] ∧
    find_free_api_ports (DB.mk [] [] []) "h1" 1 = FPResult.str "" ∧
    find_free_api_ports (DB.mk [] []
      [Host.mk "h1" "active" "badurl" 4 []]) "h1" 1 = FPResult.str "" ∧
    ∃ l, find_free_api_ports egDB "h1" 1 = FPResult.ports l := by
  refine ⟨?_, ?_, ?_, ?_⟩
  · exact (find_free_api_ports_type_amended (DB.mk [] [] []) "h1" 0).1 (by decide)
  · exact (find_free_api_ports_type_amended (DB.mk [] [] []) "h1" 1).2.1 (by decide) (by decide)
  · exact (find_free_api_ports_type_amended (DB.mk [] []
      [Host.mk "h1" "active" "badurl" 4 []]) "h1" 1).2.2.1
      (Host.mk "h1" "active" "badurl" 4 []) (by decide) (by decide) (by decide)
  · exact (find_free_api_ports_type_amended egDB "h1" 1).2.2.2 egHost [(7051 : Int)]
      (by decide) (by decide) (by decide) (by decide)

end Cello
